import Mathlib

/-!
Verification of the TrackFlow logistics platform (orders, invoices and
notifications microservices) against its natural-language specification.

The JavaScript sources are embedded shallowly:

* JS decimal numbers that carry monetary amounts are modelled by the exact
  rationals they denote (the cited end-to-end values were cross-checked
  against IEEE-754 double evaluation and agree);
* JS objects holding order records become Lean structures, and the
  in-memory order store (an object keyed by orderId) becomes an
  association list from ids to records;
* each Express route handler becomes a pure function from the request data
  and the outcomes of its awaited collaborator calls (modelled as Except
  values: Except.error is a rejected promise / thrown error) to the
  response it sends plus the store it leaves behind and the side calls it
  attempted;
* String.prototype helpers (trim, slice(-4)), the toFixed(2) serializer
  and the thousands-separator regex replace are implemented on Lean
  strings, following the ECMAScript definitions.
-/

namespace TrackFlow

/-! ### JavaScript string and number helpers -/

/-- JS whitespace test used by String.prototype.trim and by the regex
class backslash-s (space, tab, line feed, carriage return, vertical tab,
form feed; the rare Unicode space code points are not modelled). -/
def jsWhitespace (c : Char) : Bool :=
  c = ' ' || c = '\t' || c = '\n' || c = '\r' || c.toNat = 11 || c.toNat = 12

/-- JS String.prototype.trim: strip whitespace from both ends. -/
def jsTrim (s : String) : String :=
  String.mk (((s.toList.dropWhile jsWhitespace).reverse.dropWhile jsWhitespace).reverse)

/-- JS a || b for a string a: the empty string is falsy and falls through. -/
def jsOrStr (a b : String) : String :=
  if a = "" then b else a

/-- JS a || b where a is a possibly-absent string property (absent and the
empty string are both falsy). -/
def jsOrOpt (a : Option String) (b : String) : String :=
  match a with
  | none => b
  | some s => jsOrStr s b

/-- JS String.prototype.slice(-4): the last four characters, or the whole
string when it is shorter than four characters. -/
def sliceLast4 (s : String) : String :=
  String.mk (s.toList.drop (s.toList.length - 4))

/-- JS truthiness of a possibly-absent string field: absent and "" are falsy. -/
def falsyStr (o : Option String) : Bool :=
  match o with
  | none => true
  | some s => s = ""

/-- Decimal digit character for n percent 10. -/
def digitChar (n : Nat) : Char := Char.ofNat (48 + n % 10)

/-- Decimal digits of a natural number, fuelled so that it reduces in the
kernel; the fuel is always taken at least n + 1 so it never runs out. -/
def natDigitsAux : Nat → Nat → List Char
  | 0, _ => []
  | f + 1, n => if n < 10 then [digitChar n] else natDigitsAux f (n / 10) ++ [digitChar (n % 10)]

/-- Decimal rendering of a natural number. -/
def natStr (n : Nat) : String := String.mk (natDigitsAux (n + 1) n)

/-- Two-digit zero-padded rendering, for the fractional cents part. -/
def pad2 (n : Nat) : String := if n < 10 then "0" ++ natStr n else natStr n

/-- The integer n with n / 100 closest to q, ties towards the larger n:
the rounding ECMAScript prescribes for Number.prototype.toFixed(2). -/
def jsRound2 (q : ℚ) : ℤ := ⌊q * 100 + 1 / 2⌋

/-- JS number.toFixed(2): sign, integer digits, a dot and exactly two
fractional digits. -/
def toFixed2 (q : ℚ) : String :=
  let n := jsRound2 q
  (if n < 0 then "-" else "") ++ natStr (n.natAbs / 100) ++ "." ++ pad2 (n.natAbs % 100)

/-- Insert a comma before every group of three digits counted from the
right, fuelled on the length of the digit list. -/
def groupDigitsAux : Nat → List Char → List Char
  | 0, s => s
  | f + 1, s =>
    if s.length ≤ 3 then s
    else groupDigitsAux f (s.take (s.length - 3)) ++ ',' :: s.drop (s.length - 3)

/-- Thousands grouping of a digit string. -/
def groupDigits (s : List Char) : List Char := groupDigitsAux s.length s

/-- The composite of toFixed(2) and the thousands-separator regex replace
of formatCurrency (the regex, applied to a numeral with exactly two
decimals, inserts commas into the integer digit group only, which is what
this function does directly). -/
def formatNumber (q : ℚ) : String :=
  let n := jsRound2 q
  (if n < 0 then "-" else "")
    ++ String.mk (groupDigits (natDigitsAux (n.natAbs / 100 + 1) (n.natAbs / 100)))
    ++ "." ++ pad2 (n.natAbs % 100)

/-! ### The invoice currency formatter (formatCurrency, src/unnamed/part_019) -/

/-- A JavaScript value fed to formatCurrency: a string, a finite number,
the number NaN, or a value of any other type (object, null, undefined,
boolean, ...).  Number infinities are outside this model. -/
inductive JSValue where
  | str (s : String)
  | num (q : ℚ)
  | nan
  | other
deriving DecidableEq

/-- The replace of the regex class not-digit-not-dot with the empty
string: keep only digits and dots. -/
def stripNonNumeric (s : String) : List Char :=
  s.toList.filter (fun c => c.isDigit || c = '.')

/-- Numeric value of a list of decimal digit characters. -/
def digitsVal (ds : List Char) : Nat :=
  ds.foldl (fun a c => 10 * a + (c.toNat - 48)) 0

/-- JS parseFloat restricted to strings of digits and dots (the shape
stripNonNumeric produces): the longest prefix of the form digits, or
digits dot digits, with at least one digit; none models NaN. -/
def parseStripped (cs : List Char) : Option ℚ :=
  match cs.drop (cs.takeWhile Char.isDigit).length with
  | '.' :: rest2 =>
    if (cs.takeWhile Char.isDigit).isEmpty && (rest2.takeWhile Char.isDigit).isEmpty then none
    else
      some ((digitsVal (cs.takeWhile Char.isDigit) : ℚ)
        + (digitsVal (rest2.takeWhile Char.isDigit) : ℚ)
          / (10 : ℚ) ^ (rest2.takeWhile Char.isDigit).length)
  | _ =>
    if (cs.takeWhile Char.isDigit).isEmpty then none
    else some ((digitsVal (cs.takeWhile Char.isDigit) : ℚ))

/-- The upper clamp of formatCurrency: values above 9999999999 are capped. -/
def capAmount (q : ℚ) : ℚ :=
  if q > 9999999999 then 9999999999 else q

/-- formatCurrency of src/unnamed/part_019 lines 548-579: coerce the
input to a number (strings are stripped to digits and dots and parsed,
numbers are taken as is, anything else leaves the initial 0), return
"$0.00" when the coercion is NaN, cap at 9999999999 and render with two
decimals and thousands separators. -/
def formatCurrency (v : JSValue) : String :=
  match v with
  | .str s =>
    match parseStripped (stripNonNumeric s) with
    | none => "$0.00"
    | some q => "$" ++ formatNumber (capAmount q)
  | .num q => "$" ++ formatNumber (capAmount q)
  | .nan => "$0.00"
  | .other => "$" ++ formatNumber (capAmount 0)

/-! ### Email shape check -/

/-- The basic email-shape regex of src/notifications/server.js line 343,
anchored start to end: one or more characters that are neither whitespace
nor at-sign, an at-sign, then a domain part with the same character
restriction that contains a dot with at least one character on each side.
The orders service validates email with the external validator.js isEmail
rule; following the spec's words ("email matches a basic email shape")
that external check is modelled by this same basic shape. -/
def emailRegexTest (s : String) : Bool :=
  let cs := s.toList
  let localPart := cs.takeWhile (fun c => c ≠ '@')
  match cs.drop localPart.length with
  | '@' :: domainPart =>
    !localPart.isEmpty && localPart.all (fun c => !jsWhitespace c)
      && !domainPart.isEmpty
      && domainPart.all (fun c => !jsWhitespace c && c ≠ '@')
      && (domainPart.drop 1).dropLast.contains '.'
  | _ => false

/-! ### Orders service: payloads, records and the store
(src/orders/server.js) -/

/-- The payment object of an incoming order payload (all fields the
validation rules and the handlers read).  The optional billing fields may
be absent from the request. -/
structure PaymentPayload where
  cardFirstName : String
  cardLastName : String
  cardNumber : String
  securityNumber : String
  expDate : String
  billingAddress : Option String := none
  billingCity : Option String := none
  billingState : Option String := none
  billingCountry : Option String := none
  billingZipCode : Option String := none
deriving DecidableEq

/-- An order payload as it stands after convertFrontendToBackendOrder:
price and shippingCost already coerced to numbers (modelled exactly as
rationals), the payment object present.  status is the optional status
property of the request body. -/
structure OrderPayload where
  firstName : String
  lastName : String
  email : String
  phoneNumber : String
  address : String
  city : String
  state : String
  country : String
  zipCode : String
  payment : PaymentPayload
  product : String
  price : ℚ
  shippingCost : ℚ
  status : Option String := none
deriving DecidableEq

/-- The payment section of a persisted order record (the orderItem.payment
literal of the POST handler, lines 574-588, and the PUT variant of lines
747-760 which additionally sets securityNumber).  securityNumber is none
when the key is absent from the stored object. -/
structure StoredPayment where
  cardFirstName : String
  cardLastName : String
  billingAddress : String
  billingCity : String
  billingState : String
  billingCountry : String
  billingZipCode : String
  cardNumber : String
  cardNumberLast4 : String
  securityProvided : Bool
  securityNumber : Option String
  expDate : String
deriving DecidableEq

/-- A persisted order record (the orderItem literal of the POST handler,
lines 563-597). -/
structure OrderItem where
  orderId : String
  firstName : String
  lastName : String
  address : String
  city : String
  state : String
  country : String
  zipCode : String
  email : String
  phoneNumber : String
  payment : StoredPayment
  product : String
  price : ℚ
  shippingCost : ℚ
  tax : String
  totalCost : String
  status : String
  createdAt : String
  updatedAt : String
deriving DecidableEq

/-- The in-memory order store: an association list from orderId to record
(inMemoryOrders, development mode). -/
abbrev Store := List (String × OrderItem)

/-- Store read: inMemoryOrders[orderId] or null. -/
def storeGet : Store → String → Option OrderItem
  | [], _ => none
  | (k, v) :: t, a => if a = k then some v else storeGet t a

/-- Store merge-update of the record under key k (the spread
inMemoryOrders[orderId] = ..old, ..patch of orderStorage.update applied
to the record there; other keys untouched). -/
def storePatch : Store → String → (OrderItem → OrderItem) → Store
  | [], _, _ => []
  | (k, v) :: t, a, f => (if k = a then (k, f v) else (k, v)) :: storePatch t a f

/-- One express-validator rule outcome: the itemized error entry it
contributes (field path and message) when it fails. -/
def fieldCheck (ok : Bool) (field msg : String) : List (String × String) :=
  if ok then [] else [(field, msg)]

/-- The itemized validation errors of orderValidationRules (lines
374-398) on a payload.  notEmpty on a string is failure exactly on "";
body(payment) is an object and always stringifies non-empty; price and
shippingCost are numbers after conversion, and a number always
stringifies non-empty, so those three rules never fail in this model;
the email rule is the basic email shape. -/
def orderValidationErrors (p : OrderPayload) : List (String × String) :=
  fieldCheck (p.firstName != "") "firstName" "First name is required"
    ++ fieldCheck (p.lastName != "") "lastName" "Last name is required"
    ++ fieldCheck (emailRegexTest p.email) "email" "Valid email is required"
    ++ fieldCheck (p.phoneNumber != "") "phoneNumber" "Phone number is required"
    ++ fieldCheck (p.address != "") "address" "Address is required"
    ++ fieldCheck (p.city != "") "city" "City is required"
    ++ fieldCheck (p.state != "") "state" "State is required"
    ++ fieldCheck (p.country != "") "country" "Country is required"
    ++ fieldCheck (p.zipCode != "") "zipCode" "Zip code is required"
    ++ fieldCheck (p.payment.cardFirstName != "") "payment.cardFirstName" "Card first name is required"
    ++ fieldCheck (p.payment.cardLastName != "") "payment.cardLastName" "Card last name is required"
    ++ fieldCheck (p.payment.cardNumber != "") "payment.cardNumber" "Card number is required"
    ++ fieldCheck (p.payment.securityNumber != "") "payment.securityNumber" "Security code is required"
    ++ fieldCheck (p.payment.expDate != "") "payment.expDate" "Expiration date is required"
    ++ fieldCheck (p.product != "") "product" "Product name is required"

/-- The orderItem record the POST /orders handler builds and persists
(lines 552-597): fresh orderId, tax = price * 0.08 and
totalCost = price + shippingCost + tax serialized with toFixed(2),
status defaulted to "received" through the || operator, both timestamps
set to the current instant.  The payment literal keeps the full
cardNumber next to cardNumberLast4 and has no securityNumber key. -/
def buildOrderItem (p : OrderPayload) (orderId now : String) : OrderItem :=
  { orderId := orderId
    firstName := p.firstName
    lastName := p.lastName
    address := p.address
    city := p.city
    state := p.state
    country := p.country
    zipCode := p.zipCode
    email := p.email
    phoneNumber := p.phoneNumber
    payment :=
      { cardFirstName := p.payment.cardFirstName
        cardLastName := p.payment.cardLastName
        billingAddress := jsOrOpt p.payment.billingAddress p.address
        billingCity := jsOrOpt p.payment.billingCity p.city
        billingState := jsOrOpt p.payment.billingState p.state
        billingCountry := jsOrOpt p.payment.billingCountry p.country
        billingZipCode := jsOrOpt p.payment.billingZipCode p.zipCode
        cardNumber := p.payment.cardNumber
        cardNumberLast4 := sliceLast4 p.payment.cardNumber
        securityProvided := true
        securityNumber := none
        expDate := p.payment.expDate }
    product := p.product
    price := p.price
    shippingCost := p.shippingCost
    tax := toFixed2 (p.price * (8 / 100))
    totalCost := toFixed2 (p.price + p.shippingCost + p.price * (8 / 100))
    status := jsOrOpt p.status "received"
    createdAt := now
    updatedAt := now }

/-- The payment section of the updatedOrderData object the PUT
/orders/:orderId handler persists (lines 747-760): unlike the POST
literal it also stores the full securityNumber. -/
def buildPutPayment (p : OrderPayload) : StoredPayment :=
  { cardFirstName := p.payment.cardFirstName
    cardLastName := p.payment.cardLastName
    billingAddress := jsOrOpt p.payment.billingAddress p.address
    billingCity := jsOrOpt p.payment.billingCity p.city
    billingState := jsOrOpt p.payment.billingState p.state
    billingCountry := jsOrOpt p.payment.billingCountry p.country
    billingZipCode := jsOrOpt p.payment.billingZipCode p.zipCode
    cardNumber := p.payment.cardNumber
    cardNumberLast4 := sliceLast4 p.payment.cardNumber
    securityProvided := true
    securityNumber := some p.payment.securityNumber
    expDate := p.payment.expDate }

/-! ### Invoices service replica (src/invoices/server.js, storeOrderInMemory) -/

/-- The payment section storeOrderInMemory keeps (lines 134-140):
it copies the full cardNumber alongside cardNumberLast4. -/
structure InvoicePaymentCopy where
  cardFirstName : String
  cardLastName : String
  cardNumber : String
  cardNumberLast4 : Option String
  expDate : String
deriving DecidableEq

/-- The replica record the Invoices service stores for a pushed order
(storeOrderInMemory, lines 119-149). -/
structure InvoiceOrderCopy where
  orderId : String
  firstName : String
  lastName : String
  email : String
  phoneNumber : String
  address : String
  city : String
  state : String
  country : String
  zipCode : String
  payment : InvoicePaymentCopy
  product : String
  price : ℚ
  shippingCost : ℚ
  tax : String
  totalCost : String
  status : String
deriving DecidableEq

/-- storeOrderInMemory: the projection of a pushed order record onto the
replica the Invoices service keeps in its own map. -/
def storeOrderInMemory (o : OrderItem) : InvoiceOrderCopy :=
  { orderId := o.orderId
    firstName := o.firstName
    lastName := o.lastName
    email := o.email
    phoneNumber := o.phoneNumber
    address := o.address
    city := o.city
    state := o.state
    country := o.country
    zipCode := o.zipCode
    payment :=
      { cardFirstName := o.payment.cardFirstName
        cardLastName := o.payment.cardLastName
        cardNumber := o.payment.cardNumber
        cardNumberLast4 := some o.payment.cardNumberLast4
        expDate := o.payment.expDate }
    product := o.product
    price := o.price
    shippingCost := o.shippingCost
    tax := o.tax
    totalCost := o.totalCost
    status := o.status }

/-! ### Orders service route handlers -/

/-- The resolved value of sendOrderNotification (it never rejects: in
development mode it returns a stub, in production it either returns the
provider result or an error descriptor with error set).  message is the
error message, MessageId the provider message id the 201 body echoes. -/
structure SendResult where
  error : Bool
  message : Option String
  MessageId : Option String
deriving DecidableEq

/-- The notification field of the POST /orders 201 body (emailResult,
lines 615-631). -/
structure EmailField where
  sent : Bool
  messageId : Option String
  error : Option String
deriving DecidableEq

/-- The invoice field of the POST /orders 201 body (invoiceResult,
lines 634-661). -/
structure InvoiceField where
  generated : Bool
  message : String
  details : Option String
  error : Option String
deriving DecidableEq

/-- The JSON response of POST /orders: its HTTP status, the itemized
validation errors of the 400 body, and the fields of the 201 body. -/
structure CreateResponse where
  status : Nat
  errors : List (String × String)
  message : Option String
  orderId : Option String
  totalCost : Option String
  notification : Option EmailField
  invoice : Option InvoiceField
deriving DecidableEq

/-- Which collaborator calls the POST /orders handler attempted: the
push of the record to the Invoices service, the customer notification,
and the invoice generation request. -/
structure CreateEffects where
  invoicesPush : Bool
  notify : Bool
  invoiceGen : Bool
deriving DecidableEq

/-- Everything POST /orders leaves behind: the response it sends, the
order store after the request, and the side calls attempted. -/
structure CreateOutcome where
  resp : CreateResponse
  store : Store
  effects : CreateEffects

/-- The POST /orders handler (lines 537-675) for a payload that is
already in backend format, given the fresh uuid, the current timestamp
and the outcomes of its three awaited collaborator calls.  Validation
failure returns the itemized 400 before anything is stored or called.
On success the record is persisted and each fan-out call is awaited
inside its own try/catch: the push outcome is ignored, the notification
outcome becomes the sent/error field, the invoice outcome becomes the
generated/error field, and the response is 201 regardless. -/
def createOrderHandler (st : Store) (p : OrderPayload) (orderId now : String)
    (_pushR : Except String Unit) (notifR : Except String SendResult)
    (genR : Except String String) : CreateOutcome :=
  let errs := orderValidationErrors p
  if !errs.isEmpty then
    { resp := { status := 400, errors := errs, message := none, orderId := none,
                totalCost := none, notification := none, invoice := none }
      store := st
      effects := { invoicesPush := false, notify := false, invoiceGen := false } }
  else
    let item := buildOrderItem p orderId now
    let st2 : Store := (orderId, item) :: st
    -- the push to the Invoices service is awaited but its outcome is
    -- only logged, so pushR is not read further
    let emailResult : EmailField :=
      match notifR with
      | .ok r =>
        { sent := !r.error, messageId := r.MessageId,
          error := if r.error then r.message else none }
      | .error m => { sent := false, messageId := none, error := some m }
    let invoiceResult : InvoiceField :=
      match genR with
      | .ok d =>
        { generated := true, message := "Invoice has been generated and sent",
          details := some d, error := none }
      | .error m =>
        { generated := false,
          message := "Failed to generate invoice, it will be processed later",
          details := none, error := some m }
    { resp := { status := 201, errors := [],
                message := some "Order created successfully",
                orderId := some orderId,
                totalCost := some (toFixed2 (p.price + p.shippingCost + p.price * (8 / 100))),
                notification := some emailResult,
                invoice := some invoiceResult }
      store := st2
      effects := { invoicesPush := true, notify := true, invoiceGen := true } }

/-- The GET /orders/:orderId handler (lines 689-703): 404 when the store
has no record under the id, otherwise 200 with the record. -/
def getOrderHandler (st : Store) (orderId : String) : Nat × Option OrderItem :=
  match storeGet st orderId with
  | none => (404, none)
  | some o => (200, some o)

/-- The GET /orders/status/:status handler (lines 878-887): no
validation of the literal, 200 with the records whose status equals it. -/
def filterStatusHandler (st : Store) (status : String) : Nat × List OrderItem :=
  (200, (st.map (fun kv => kv.2)).filter (fun o => o.status == status))

/-- The isIn list of the PATCH /orders/:orderId/status validation chain
(line 800). -/
def allowedPatchStatuses : List String :=
  ["received", "processing", "shipped", "delivered", "cancelled", "on-hold", "returned"]

/-- The itemized errors of the PATCH status validation chain
(trim, then notEmpty, then isIn; each failing link contributes its
message). -/
def patchStatusErrors (rawStatus : String) : List (String × String) :=
  let s := jsTrim rawStatus
  fieldCheck (s != "") "status" "Valid status is required"
    ++ fieldCheck (allowedPatchStatuses.contains s) "status" "Invalid order status value"

/-- The merge orderStorage.update performs for the PATCH handler, spread
of the stored record with the status and updatedAt patch (lines 149-153
and 820-823): only those two fields change. -/
def mergeStatus (o : OrderItem) (s t : String) : OrderItem :=
  { o with status := s, updatedAt := t }

/-- The JSON response of PATCH /orders/:orderId/status. -/
structure PatchResponse where
  status : Nat
  errors : List (String × String)
  order : Option OrderItem
deriving DecidableEq

/-- The response of the PATCH handler together with the store it leaves. -/
structure PatchOutcome where
  resp : PatchResponse
  store : Store

/-- The PATCH /orders/:orderId/status handler (lines 795-851): 400 with
the itemized errors when the trimmed status is empty or outside the
allowed list, 404 when the order does not exist, otherwise the merge of
status and updatedAt into the stored record, returned with 200. -/
def patchStatusHandler (st : Store) (orderId rawStatus now : String) : PatchOutcome :=
  let errs := patchStatusErrors rawStatus
  if !errs.isEmpty then
    { resp := { status := 400, errors := errs, order := none }, store := st }
  else
    let s := jsTrim rawStatus
    match storeGet st orderId with
    | none => { resp := { status := 404, errors := [], order := none }, store := st }
    | some o =>
      { resp := { status := 200, errors := [], order := some (mergeStatus o s now) }
        store := storePatch st orderId (fun old => mergeStatus old s now) }

/-! ### Notifications service (src/notifications/server.js) -/

/-- The body of POST /notify: each property may be absent. -/
structure NotifyRequest where
  orderId : Option String := none
  customerEmail : Option String := none
  status : Option String := none
  customerName : Option String := none
deriving DecidableEq

/-- The resolved value of sendNotification (lines 160-312): it resolves
with success and a message id, or with success false plus the error
classification (error message, coarse errorType, remediation
suggestion); it only rejects on an unexpected exception, which the model
carries as Except.error at the call site. -/
structure NotifySendResult where
  success : Bool
  messageId : Option String
  recipients : List String
  error : Option String
  errorType : Option String
  suggestion : Option String
deriving DecidableEq

/-- The JSON response of POST /notify: HTTP status, the error/details
pair of the 400 and 500 bodies, and the message/success/details fields
of the 200 body (detailError, detailErrorType and detailSuggestion are
the error, errorType and suggestion entries of the details object of the
200-with-failure body). -/
structure NotifyResponse where
  status : Nat
  errorMsg : Option String
  errorDetails : Option String
  message : Option String
  success : Option Bool
  detailError : Option String
  detailErrorType : Option String
  detailSuggestion : Option String
deriving DecidableEq

/-- A 400 response of POST /notify. -/
def notify400 (e d : String) : NotifyResponse :=
  { status := 400, errorMsg := some e, errorDetails := some d, message := none,
    success := none, detailError := none, detailErrorType := none, detailSuggestion := none }

/-- The response of the POST /notify handler together with whether
sendNotification was invoked. -/
structure NotifyOutcome where
  resp : NotifyResponse
  sendAttempted : Bool

/-- The POST /notify handler (lines 315-402), given the development-mode
flag and the outcome of the awaited sendNotification call: each missing
or empty required field is a 400 before any send; a malformed customer
email is a 400 before any send; otherwise sendNotification is awaited,
a resolved failure still answers 200 with success false and the error
classification in the details, and only a rejection (unexpected
exception) answers 500. -/
def notifyHandler (isDev : Bool) (req : NotifyRequest)
    (sendR : Except String NotifySendResult) : NotifyOutcome :=
  if falsyStr req.orderId then
    { resp := notify400 "Missing required field: orderId"
        "The order ID is required to send a notification", sendAttempted := false }
  else if falsyStr req.customerEmail then
    { resp := notify400 "Missing required field: customerEmail"
        "A customer email address is required to send a notification", sendAttempted := false }
  else if falsyStr req.status then
    { resp := notify400 "Missing required field: status"
        "An order status is required to send a notification", sendAttempted := false }
  else if !emailRegexTest (req.customerEmail.getD "") then
    { resp := notify400 "Invalid email format"
        "The provided email address is not in a valid format", sendAttempted := false }
  else
    match sendR with
    | .error m =>
      { resp := { status := 500, errorMsg := some "Failed to process notification",
                  errorDetails := some m, message := none, success := none,
                  detailError := none, detailErrorType := none, detailSuggestion := none }
        sendAttempted := true }
    | .ok r =>
      if r.success then
        { resp := { status := 200, errorMsg := none, errorDetails := none,
                    message := some (if isDev then "Notification logged (development mode)"
                                     else "Notification sent successfully"),
                    success := some true, detailError := none, detailErrorType := none,
                    detailSuggestion := none }
          sendAttempted := true }
      else
        { resp := { status := 200, errorMsg := none, errorDetails := none,
                    message := some "Notification request processed but email delivery failed",
                    success := some false, detailError := r.error,
                    detailErrorType := r.errorType, detailSuggestion := r.suggestion }
          sendAttempted := true }

/-! ### Concrete sample data used by witnesses and counterexamples -/

/-- A fully valid payment object with a full card number and CVV. -/
def samplePayment : PaymentPayload :=
  { cardFirstName := "Jane", cardLastName := "Doe",
    cardNumber := "4111111111111111", securityNumber := "123",
    expDate := "12/26" }

/-- A fully valid order payload with price 99.99 and shipping 10.00 and
no status property. -/
def samplePayload : OrderPayload :=
  { firstName := "Jane", lastName := "Doe", email := "jane.doe@example.com",
    phoneNumber := "555-0100", address := "1 Main St", city := "San Jose",
    state := "CA", country := "USA", zipCode := "95112",
    payment := samplePayment, product := "Laptop",
    price := 9999 / 100, shippingCost := 10 }

/-- The resolved sendOrderNotification value of development mode. -/
def devSendResult : SendResult :=
  { error := false, message := none, MessageId := none }

/-- A stored order record used to populate sample stores. -/
def sampleItem : OrderItem := buildOrderItem samplePayload "order-1" "2025-01-01T00:00:00.000Z"

/-! ### Helper lemmas -/

/-- Patching the record under a key changes exactly that entry of the
store as seen through storeGet. -/
theorem storeGet_storePatch_self (st : Store) (k : String) (f : OrderItem → OrderItem) :
    storeGet (storePatch st k f) k = (storeGet st k).map f := by
  induction st with
  | nil => rfl
  | cons kv t ih =>
    obtain ⟨a, b⟩ := kv
    simp only [storePatch]
    by_cases h : a = k
    · rw [if_pos h]
      simp only [storeGet]
      rw [if_pos h.symm, if_pos h.symm]
      rfl
    · rw [if_neg h]
      simp only [storeGet]
      rw [if_neg fun hh => h hh.symm, if_neg fun hh => h hh.symm]
      exact ih

/-- Patching the record under a key leaves every other key unchanged. -/
theorem storeGet_storePatch_ne (st : Store) (k k2 : String) (f : OrderItem → OrderItem)
    (h : k2 ≠ k) : storeGet (storePatch st k f) k2 = storeGet st k2 := by
  induction st with
  | nil => rfl
  | cons kv t ih =>
    obtain ⟨a, b⟩ := kv
    simp only [storePatch]
    by_cases ha : a = k
    · rw [if_pos ha]
      simp only [storeGet]
      have hne : k2 ≠ a := fun hh => h (hh.trans ha)
      rw [if_neg hne, if_neg hne]
      exact ih
    · rw [if_neg ha]
      simp only [storeGet]
      by_cases hb : k2 = a
      · rw [if_pos hb, if_pos hb]
      · rw [if_neg hb, if_neg hb]
        exact ih

/-- parseStripped only produces non-negative values: the stripped string
has no sign character left, so the parsed number is a sum of a natural
part and a natural fraction. -/
theorem parseStripped_nonneg (cs : List Char) (q : ℚ) (h : parseStripped cs = some q) :
    0 ≤ q := by
  unfold parseStripped at h
  split at h
  · split at h
    · exact absurd h (by simp)
    · rw [Option.some_inj] at h
      subst h
      positivity
  · split at h
    · exact absurd h (by simp)
    · rw [Option.some_inj] at h
      subst h
      exact Nat.cast_nonneg _

/-- The cap never exceeds the bound. -/
theorem capAmount_le (q : ℚ) : capAmount q ≤ 9999999999 := by
  unfold capAmount
  split_ifs with h
  · norm_num
  · exact not_lt.mp h

/-- The cap preserves non-negativity. -/
theorem capAmount_nonneg (q : ℚ) (h : 0 ≤ q) : 0 ≤ capAmount q := by
  unfold capAmount
  split_ifs with h2
  · norm_num
  · exact h

/-- Rendering of the zero amount. -/
theorem formatNumber_zero : formatNumber 0 = "0.00" := by
  have h : jsRound2 (0 : ℚ) = 0 := by norm_num [jsRound2]
  simp only [formatNumber, h]
  decide

/-- A dollar rendering of a non-negative amount within the cap, produced
by the two-decimal thousands-separated formatter. -/
def isMoneyOutput (out : String) : Prop :=
  ∃ q : ℚ, 0 ≤ q ∧ q ≤ 9999999999 ∧ out = "$" ++ formatNumber q

/-! ### C9 -/

/-- C9 (corrected): formatCurrency is a total function and every input
other than a negative number yields a dollar rendering of a non-negative
amount capped at 9999999999 with two decimals and thousands separators;
malformed input degrades to the zero amount.  (The claim fails for
negative number inputs, see the counterexample: there is no lower
clamp.) -/
theorem formatCurrency_total_and_capped (v : JSValue)
    (h : ∀ q : ℚ, v = JSValue.num q → 0 ≤ q) :
    isMoneyOutput (formatCurrency v) := by
  cases v with
  | str s =>
    cases hp : parseStripped (stripNonNumeric s) with
    | none =>
      refine ⟨0, le_refl _, by norm_num, ?_⟩
      rw [formatNumber_zero]
      simp [formatCurrency, hp]
    | some q =>
      exact ⟨capAmount q, capAmount_nonneg q (parseStripped_nonneg _ _ hp),
        capAmount_le q, by simp [formatCurrency, hp]⟩
  | num q =>
    exact ⟨capAmount q, capAmount_nonneg q (h q rfl), capAmount_le q, rfl⟩
  | nan =>
    refine ⟨0, le_refl _, by norm_num, ?_⟩
    rw [formatNumber_zero]
    rfl
  | other =>
    exact ⟨capAmount 0, capAmount_nonneg 0 (le_refl _), capAmount_le 0, rfl⟩

/-- C9 witness: the theorem applied to a malformed string input. -/
theorem formatCurrency_total_and_capped_witness :
    isMoneyOutput (formatCurrency (JSValue.str "12a.5x")) :=
  formatCurrency_total_and_capped (JSValue.str "12a.5x") (fun _ h => nomatch h)

/-- C9 counterexample: a negative number input is not coerced to a valid
non-negative amount; formatCurrency renders a negative dollar string, so
the coercion claimed by the spec does not hold for number inputs. -/
theorem formatCurrency_negative_number_output :
    formatCurrency (JSValue.num (-5)) = "$-5.00" := by
  have hcap : capAmount (-5 : ℚ) = -5 := by
    unfold capAmount
    norm_num
  have h : jsRound2 (-5 : ℚ) = -500 := by norm_num [jsRound2]
  simp only [formatCurrency, hcap, formatNumber, h]
  decide

/-! ### C1 -/

/-- C1 (code bug): a valid order payload carrying the full card number
4111111111111111 and CVV 123 passes validation, yet the record the POST
/orders handler persists keeps the full card number in its payment
section (next to cardNumberLast4), the replica pushed to the Invoices
service keeps it as well, and the payment object the PUT handler
persists additionally keeps the full securityNumber — contradicting the
code's own comments that only the last four digits and a provided-flag
are stored. -/
theorem post_and_put_persist_full_card_and_cvv :
    orderValidationErrors samplePayload = []
      ∧ (buildOrderItem samplePayload "order-1" "2025-01-01T00:00:00.000Z").payment.cardNumber
          = "4111111111111111"
      ∧ (storeOrderInMemory
            (buildOrderItem samplePayload "order-1" "2025-01-01T00:00:00.000Z")).payment.cardNumber
          = "4111111111111111"
      ∧ (buildPutPayment samplePayload).securityNumber = some "123"
      ∧ storeGet (createOrderHandler [] samplePayload "order-1" "2025-01-01T00:00:00.000Z"
            (Except.ok ()) (Except.ok devSendResult) (Except.ok "ok")).store "order-1"
          = some (buildOrderItem samplePayload "order-1" "2025-01-01T00:00:00.000Z") := by
  refine ⟨by decide, rfl, rfl, rfl, rfl⟩

/-! ### C4 -/

/-- C4 counterexample: the status filter endpoint performs no validation
of the literal; for the literal "bogus", which is outside every allowed
status set, it answers 200 with an empty array on a non-empty store,
not 400. -/
theorem filter_status_unknown_literal_returns_200_empty :
    filterStatusHandler [("order-1", sampleItem)] "bogus" = (200, []) := rfl

/-- C4 (corrected): GET /orders/status/:status always answers 200 with
the stored records whose status equals the literal; in particular a
literal no stored record carries (such as any literal outside the
allowed set over a store of well-formed records) yields 200 with the
empty array, and no input yields 400. -/
theorem filter_status_no_validation :
    (∀ (st : Store) (s : String), (filterStatusHandler st s).1 = 200)
      ∧ (∀ (st : Store) (s : String), (∀ kv ∈ st, (kv : String × OrderItem).2.status ≠ s) →
          filterStatusHandler st s = (200, [])) := by
  constructor
  · intro st s
    rfl
  · intro st s h
    unfold filterStatusHandler
    have he : (st.map (fun kv => kv.2)).filter (fun o => o.status == s) = [] := by
      rw [List.filter_eq_nil_iff]
      intro o ho
      obtain ⟨kv, hkv, rfl⟩ := List.mem_map.mp ho
      simpa using h kv hkv
    rw [he]

/-- C4 witness: the corrected theorem applied to a one-record store and
the literal "processing" that no stored record carries. -/
theorem filter_status_no_validation_witness :
    filterStatusHandler [("order-1", sampleItem)] "processing" = (200, []) :=
  filter_status_no_validation.2 [("order-1", sampleItem)] "processing" (by decide)

/-! ### C6 -/

/-- The patch-status validation chain succeeds exactly on the trimmed
literals of the isIn list (every member is non-empty, so the notEmpty
link never fails alone). -/
theorem patchStatusErrors_eq_nil (s : String) :
    patchStatusErrors s = [] ↔ jsTrim s ∈ allowedPatchStatuses := by
  by_cases hm : jsTrim s ∈ allowedPatchStatuses
  · have hne : jsTrim s ≠ "" := by
      intro he
      rw [he] at hm
      exact absurd hm (by decide)
    have hc : allowedPatchStatuses.contains (jsTrim s) = true := by simpa using hm
    simp [patchStatusErrors, fieldCheck, hc, bne_iff_ne, hne, hm]
  · have hc : allowedPatchStatuses.contains (jsTrim s) = false := by simpa using hm
    simp [patchStatusErrors, fieldCheck, hc, hm]

/-- C6 (corrected): the allowed set of PATCH /orders/:orderId/status is
exactly received, processing, shipped, delivered, cancelled, on-hold and
returned; every member is accepted and applied on an existing order, and
every literal whose trim is outside the list — including in-transit — is
rejected with 400. -/
theorem patch_status_allowed_set :
    allowedPatchStatuses
        = ["received", "processing", "shipped", "delivered", "cancelled", "on-hold", "returned"]
      ∧ (∀ s : String, patchStatusErrors s = [] ↔ jsTrim s ∈ allowedPatchStatuses)
      ∧ (∀ (st : Store) (oid : String) (o : OrderItem) (s now : String),
          storeGet st oid = some o → jsTrim s ∈ allowedPatchStatuses →
            (patchStatusHandler st oid s now).resp.status = 200
              ∧ (patchStatusHandler st oid s now).resp.order
                  = some (mergeStatus o (jsTrim s) now))
      ∧ (∀ (st : Store) (oid s now : String),
          jsTrim s ∉ allowedPatchStatuses →
            (patchStatusHandler st oid s now).resp.status = 400) := by
  refine ⟨rfl, patchStatusErrors_eq_nil, ?_, ?_⟩
  · intro st oid o s now hget hc
    have he : patchStatusErrors s = [] := (patchStatusErrors_eq_nil s).mpr hc
    constructor
    · simp [patchStatusHandler, he, hget]
    · simp [patchStatusHandler, he, hget]
  · intro st oid s now hc
    cases herr : patchStatusErrors s with
    | nil =>
      rw [patchStatusErrors_eq_nil] at herr
      exact absurd herr hc
    | cons a t =>
      simp [patchStatusHandler, herr]

/-- C6 witness: on-hold (a member) is accepted on an existing order and
the unknown literal bogus is rejected with 400. -/
theorem patch_status_allowed_set_witness :
    (patchStatusHandler [("order-1", sampleItem)] "order-1" "on-hold" "t1").resp.status = 200
      ∧ (patchStatusHandler [] "order-2" "bogus" "t1").resp.status = 400 :=
  ⟨(patch_status_allowed_set.2.2.1 [("order-1", sampleItem)] "order-1" sampleItem "on-hold" "t1"
      rfl (by decide)).1,
    patch_status_allowed_set.2.2.2 [] "order-2" "bogus" "t1" (by decide)⟩

/-- C6 counterexample: in-transit, which the claim includes in the
allowed set, is rejected with 400 on an existing order, and the store is
left unchanged. -/
theorem patch_status_in_transit_rejected :
    (patchStatusHandler [("order-1", sampleItem)] "order-1" "in-transit"
        "2025-01-02T00:00:00.000Z").resp.status = 400
      ∧ (patchStatusHandler [("order-1", sampleItem)] "order-1" "in-transit"
          "2025-01-02T00:00:00.000Z").resp.errors = [("status", "Invalid order status value")]
      ∧ storeGet (patchStatusHandler [("order-1", sampleItem)] "order-1" "in-transit"
          "2025-01-02T00:00:00.000Z").store "order-1" = some sampleItem :=
  ⟨rfl, rfl, rfl⟩

/-! ### C7 -/

/-- C7 (confirmed): for an existing order and a status accepted by the
validation chain, the PATCH handler answers 200 and replaces the stored
record by its merge with the status patch: status becomes the trimmed
literal, updatedAt becomes the current instant, and every other field of
the record — and every other key of the store — is unchanged. -/
theorem patch_status_frame (st : Store) (oid s now : String) (o : OrderItem)
    (hget : storeGet st oid = some o) (hok : patchStatusErrors s = []) :
    (patchStatusHandler st oid s now).resp.status = 200
      ∧ storeGet (patchStatusHandler st oid s now).store oid
          = some (mergeStatus o (jsTrim s) now)
      ∧ (mergeStatus o (jsTrim s) now).status = jsTrim s
      ∧ (mergeStatus o (jsTrim s) now).updatedAt = now
      ∧ (mergeStatus o (jsTrim s) now).orderId = o.orderId
      ∧ (mergeStatus o (jsTrim s) now).firstName = o.firstName
      ∧ (mergeStatus o (jsTrim s) now).lastName = o.lastName
      ∧ (mergeStatus o (jsTrim s) now).address = o.address
      ∧ (mergeStatus o (jsTrim s) now).city = o.city
      ∧ (mergeStatus o (jsTrim s) now).state = o.state
      ∧ (mergeStatus o (jsTrim s) now).country = o.country
      ∧ (mergeStatus o (jsTrim s) now).zipCode = o.zipCode
      ∧ (mergeStatus o (jsTrim s) now).email = o.email
      ∧ (mergeStatus o (jsTrim s) now).phoneNumber = o.phoneNumber
      ∧ (mergeStatus o (jsTrim s) now).payment = o.payment
      ∧ (mergeStatus o (jsTrim s) now).product = o.product
      ∧ (mergeStatus o (jsTrim s) now).price = o.price
      ∧ (mergeStatus o (jsTrim s) now).shippingCost = o.shippingCost
      ∧ (mergeStatus o (jsTrim s) now).tax = o.tax
      ∧ (mergeStatus o (jsTrim s) now).totalCost = o.totalCost
      ∧ (mergeStatus o (jsTrim s) now).createdAt = o.createdAt
      ∧ (∀ k2 : String, k2 ≠ oid →
          storeGet (patchStatusHandler st oid s now).store k2 = storeGet st k2) := by
  refine ⟨?_, ?_, rfl, rfl, rfl, rfl, rfl, rfl, rfl, rfl, rfl, rfl, rfl, rfl, rfl, rfl,
    rfl, rfl, rfl, rfl, rfl, ?_⟩
  · simp [patchStatusHandler, hok, hget]
  · simp only [patchStatusHandler, hok, hget]
    simp only [List.isEmpty_nil, Bool.not_true, Bool.false_eq_true, if_false]
    rw [storeGet_storePatch_self, hget]
    rfl
  · intro k2 hk2
    simp only [patchStatusHandler, hok, hget]
    simp only [List.isEmpty_nil, Bool.not_true, Bool.false_eq_true, if_false]
    exact storeGet_storePatch_ne st oid k2 _ hk2

/-- C7 witness: the frame theorem applied to a concrete one-record store
and the accepted status shipped. -/
theorem patch_status_frame_witness :
    (patchStatusHandler [("order-1", sampleItem)] "order-1" "shipped" "t2").resp.status = 200
      ∧ storeGet (patchStatusHandler [("order-1", sampleItem)] "order-1" "shipped" "t2").store
          "order-1" = some (mergeStatus sampleItem (jsTrim "shipped") "t2") := by
  have h := patch_status_frame [("order-1", sampleItem)] "order-1" "shipped" "t2" sampleItem
    rfl (by decide)
  exact ⟨h.1, h.2.1⟩

/-- On a payload passing validation, the creation handler prepends the
freshly built record to the store. -/
theorem createOrder_success_store (st : Store) (p : OrderPayload) (oid now : String)
    (pushR : Except String Unit) (notifR : Except String SendResult)
    (genR : Except String String) (hval : orderValidationErrors p = []) :
    (createOrderHandler st p oid now pushR notifR genR).store
      = (oid, buildOrderItem p oid now) :: st := by
  simp [createOrderHandler, hval]

/-! ### C2 -/

/-- C2 (confirmed): for every payload passing validation, whatever the
outcomes of the three awaited collaborator calls, POST /orders answers
201 with the generated orderId; a failed invoice generation surfaces as
generated false with the error message, and a failed notification — the
call rejecting or resolving with an error flag — surfaces as sent false
with the error description; no combination of fan-out outcomes produces
a non-201 response. -/
theorem post_orders_fanout_fault_tolerance (st : Store) (p : OrderPayload) (oid now : String)
    (pushR : Except String Unit) (notifR : Except String SendResult)
    (genR : Except String String) (hval : orderValidationErrors p = []) :
    (createOrderHandler st p oid now pushR notifR genR).resp.status = 201
      ∧ (createOrderHandler st p oid now pushR notifR genR).resp.orderId = some oid
      ∧ (∀ m, genR = Except.error m →
          (createOrderHandler st p oid now pushR notifR genR).resp.invoice
            = some { generated := false,
                     message := "Failed to generate invoice, it will be processed later",
                     details := none, error := some m })
      ∧ (∀ m, notifR = Except.error m →
          (createOrderHandler st p oid now pushR notifR genR).resp.notification
            = some { sent := false, messageId := none, error := some m })
      ∧ (∀ r, notifR = Except.ok r → r.error = true →
          (createOrderHandler st p oid now pushR notifR genR).resp.notification
            = some { sent := false, messageId := r.MessageId, error := r.message }) := by
  refine ⟨?_, ?_, ?_, ?_, ?_⟩
  · simp [createOrderHandler, hval]
  · simp [createOrderHandler, hval]
  · intro m hm
    simp [createOrderHandler, hval, hm]
  · intro m hm
    simp [createOrderHandler, hval, hm]
  · intro r hr herr
    simp [createOrderHandler, hval, hr, herr]

/-- C2 witness: a valid payload with both downstream collaborators
unreachable still gets 201 with its orderId, and the invoice and
notification fields carry the failure descriptors. -/
theorem post_orders_fanout_fault_tolerance_witness :
    (createOrderHandler [] samplePayload "order-9" "t0" (Except.error "push failed")
        (Except.error "notify down") (Except.error "invoice down")).resp.status = 201
      ∧ (createOrderHandler [] samplePayload "order-9" "t0" (Except.error "push failed")
          (Except.error "notify down") (Except.error "invoice down")).resp.orderId
          = some "order-9"
      ∧ (createOrderHandler [] samplePayload "order-9" "t0" (Except.error "push failed")
          (Except.error "notify down") (Except.error "invoice down")).resp.invoice
          = some { generated := false,
                   message := "Failed to generate invoice, it will be processed later",
                   details := none, error := some "invoice down" }
      ∧ (createOrderHandler [] samplePayload "order-9" "t0" (Except.error "push failed")
          (Except.error "notify down") (Except.error "invoice down")).resp.notification
          = some { sent := false, messageId := none, error := some "notify down" } := by
  have h := post_orders_fanout_fault_tolerance [] samplePayload "order-9" "t0"
    (Except.error "push failed") (Except.error "notify down") (Except.error "invoice down")
    (by decide)
  exact ⟨h.1, h.2.1, h.2.2.1 "invoice down" rfl, h.2.2.2.1 "notify down" rfl⟩

/-! ### C3 -/

/-- C3 (confirmed): every accepted payload is stored and answered with
tax equal to price times 0.08 and totalCost equal to price plus
shippingCost plus tax, both serialized by toFixed(2); the 201 body
carries the same totalCost string as the stored record. -/
theorem post_orders_tax_and_total (st : Store) (p : OrderPayload) (oid now : String)
    (pushR : Except String Unit) (notifR : Except String SendResult)
    (genR : Except String String) (hval : orderValidationErrors p = []) :
    (createOrderHandler st p oid now pushR notifR genR).resp.totalCost
        = some (toFixed2 (p.price + p.shippingCost + p.price * (8 / 100)))
      ∧ storeGet (createOrderHandler st p oid now pushR notifR genR).store oid
          = some (buildOrderItem p oid now)
      ∧ (buildOrderItem p oid now).tax = toFixed2 (p.price * (8 / 100))
      ∧ (buildOrderItem p oid now).totalCost
          = toFixed2 (p.price + p.shippingCost + p.price * (8 / 100)) := by
  refine ⟨?_, ?_, rfl, rfl⟩
  · simp [createOrderHandler, hval]
  · rw [createOrder_success_store st p oid now pushR notifR genR hval]
    simp [storeGet]

/-- C3 witness: for price 99.99 and shippingCost 10.00 the stored tax is
the string 8.00 and both the stored and the returned totalCost are the
string 117.99. -/
theorem post_orders_tax_and_total_witness :
    (createOrderHandler [] samplePayload "order-3" "t0" (Except.ok ())
        (Except.ok devSendResult) (Except.ok "inv")).resp.totalCost = some "117.99"
      ∧ (buildOrderItem samplePayload "order-3" "t0").tax = "8.00"
      ∧ (buildOrderItem samplePayload "order-3" "t0").totalCost = "117.99" := by
  have h := post_orders_tax_and_total [] samplePayload "order-3" "t0" (Except.ok ())
    (Except.ok devSendResult) (Except.ok "inv") (by decide)
  have hr1 : jsRound2 (samplePayload.price * (8 / 100)) = 800 := by
    rw [show samplePayload.price = (9999 : ℚ) / 100 from rfl]
    norm_num [jsRound2]
  have hr2 : jsRound2 (samplePayload.price + samplePayload.shippingCost
      + samplePayload.price * (8 / 100)) = 11799 := by
    rw [show samplePayload.price = (9999 : ℚ) / 100 from rfl,
      show samplePayload.shippingCost = (10 : ℚ) from rfl]
    norm_num [jsRound2]
  have htax : toFixed2 (samplePayload.price * (8 / 100)) = "8.00" := by
    simp only [toFixed2, hr1]
    decide
  have htot : toFixed2 (samplePayload.price + samplePayload.shippingCost
      + samplePayload.price * (8 / 100)) = "117.99" := by
    simp only [toFixed2, hr2]
    decide
  refine ⟨h.1.trans (by rw [htot]), h.2.2.1.trans htax, h.2.2.2.trans htot⟩

/-! ### C5 -/

/-- C5 (corrected): POST /orders answers 400 with the per-field itemized
error list and performs no side effects — nothing stored, no fan-out
call — whenever the validation rules fail; but the rules only check the
string fields non-empty and the email shape: price and shippingCost are
never compared against zero, so the rules are completely insensitive to
their values.  (The claim that price is validated positive fails, see
the counterexample.) -/
theorem post_orders_validation_no_side_effects :
    (∀ (st : Store) (p : OrderPayload) (oid now : String) (pushR : Except String Unit)
        (notifR : Except String SendResult) (genR : Except String String),
      orderValidationErrors p ≠ [] →
        (createOrderHandler st p oid now pushR notifR genR).resp.status = 400
          ∧ (createOrderHandler st p oid now pushR notifR genR).resp.errors
              = orderValidationErrors p
          ∧ (createOrderHandler st p oid now pushR notifR genR).store = st
          ∧ (createOrderHandler st p oid now pushR notifR genR).effects
              = { invoicesPush := false, notify := false, invoiceGen := false })
      ∧ (∀ (p : OrderPayload) (q1 q2 : ℚ),
          orderValidationErrors { p with price := q1, shippingCost := q2 }
            = orderValidationErrors p) := by
  constructor
  · intro st p oid now pushR notifR genR h
    cases herr : orderValidationErrors p with
    | nil => exact absurd herr h
    | cons a t =>
      refine ⟨?_, ?_, ?_, ?_⟩ <;> simp [createOrderHandler, herr]
  · intro p q1 q2
    rfl

/-- C5 witness: a payload with an empty first name is rejected with 400
and leaves the store empty with no fan-out attempted. -/
theorem post_orders_validation_no_side_effects_witness :
    (createOrderHandler [] { samplePayload with firstName := "" } "order-4" "t0" (Except.ok ())
        (Except.ok devSendResult) (Except.ok "inv")).resp.status = 400
      ∧ (createOrderHandler [] { samplePayload with firstName := "" } "order-4" "t0"
          (Except.ok ()) (Except.ok devSendResult) (Except.ok "inv")).store = []
      ∧ (createOrderHandler [] { samplePayload with firstName := "" } "order-4" "t0"
          (Except.ok ()) (Except.ok devSendResult) (Except.ok "inv")).effects
          = { invoicesPush := false, notify := false, invoiceGen := false } := by
  have h := post_orders_validation_no_side_effects.1 [] { samplePayload with firstName := "" }
    "order-4" "t0" (Except.ok ()) (Except.ok devSendResult) (Except.ok "inv") (by decide)
  exact ⟨h.1, h.2.2.1, h.2.2.2⟩

/-- A payload identical to the valid sample except for a negative price. -/
def negPricePayload : OrderPayload := { samplePayload with price := -5 }

/-- C5 counterexample: a payload violating price positivity passes all
validation rules and is accepted with 201, stored, and fanned out — so
the claimed price and shippingCost sign checks do not exist. -/
theorem post_orders_negative_price_accepted :
    orderValidationErrors negPricePayload = []
      ∧ (createOrderHandler [] negPricePayload "order-5" "t0" (Except.ok ())
          (Except.ok devSendResult) (Except.ok "inv")).resp.status = 201
      ∧ (createOrderHandler [] negPricePayload "order-5" "t0" (Except.ok ())
          (Except.ok devSendResult) (Except.ok "inv")).effects.invoiceGen = true
      ∧ storeGet (createOrderHandler [] negPricePayload "order-5" "t0" (Except.ok ())
          (Except.ok devSendResult) (Except.ok "inv")).store "order-5"
          = some (buildOrderItem negPricePayload "order-5" "t0")
      ∧ (buildOrderItem negPricePayload "order-5" "t0").price = -5 :=
  ⟨by decide, rfl, rfl, rfl, rfl⟩

/-! ### C8 -/

/-- C8 (corrected): reading back a freshly created order returns 200
with the stored record, whose orderId is exactly the id the creation
response carried; its status is the status property of the payload when
a non-empty one was supplied (the || default), and "received" exactly
when the payload carried no status (or an empty one).  (The claim that
the status is always "received" fails, see the counterexample.) -/
theorem get_after_post_roundtrip (st : Store) (p : OrderPayload) (oid now : String)
    (pushR : Except String Unit) (notifR : Except String SendResult)
    (genR : Except String String) (hval : orderValidationErrors p = []) :
    getOrderHandler (createOrderHandler st p oid now pushR notifR genR).store oid
        = (200, some (buildOrderItem p oid now))
      ∧ (buildOrderItem p oid now).orderId = oid
      ∧ (buildOrderItem p oid now).status = jsOrOpt p.status "received"
      ∧ (p.status = none → (buildOrderItem p oid now).status = "received") := by
  refine ⟨?_, rfl, rfl, ?_⟩
  · rw [createOrder_success_store st p oid now pushR notifR genR hval]
    simp [getOrderHandler, storeGet]
  · intro h
    show jsOrOpt p.status "received" = "received"
    rw [h]
    rfl

/-- C8 witness: the round trip for the sample payload, which carries no
status property, yields the stored record with matching orderId and
status received. -/
theorem get_after_post_roundtrip_witness :
    getOrderHandler (createOrderHandler [] samplePayload "order-8" "t0" (Except.ok ())
        (Except.ok devSendResult) (Except.ok "inv")).store "order-8"
        = (200, some (buildOrderItem samplePayload "order-8" "t0"))
      ∧ (buildOrderItem samplePayload "order-8" "t0").orderId = "order-8"
      ∧ (buildOrderItem samplePayload "order-8" "t0").status = "received" := by
  have h := get_after_post_roundtrip [] samplePayload "order-8" "t0" (Except.ok ())
    (Except.ok devSendResult) (Except.ok "inv") (by decide)
  exact ⟨h.1, h.2.1, h.2.2.2 rfl⟩

/-- A payload identical to the valid sample except that it supplies a
status property of shipped. -/
def shippedStatusPayload : OrderPayload := { samplePayload with status := some "shipped" }

/-- C8 counterexample: an accepted payload that supplies status shipped
is stored and read back with status shipped, not received, because the
creation handler only defaults the payload status through the ||
operator. -/
theorem post_orders_payload_status_overrides_received :
    orderValidationErrors shippedStatusPayload = []
      ∧ getOrderHandler (createOrderHandler [] shippedStatusPayload "order-6" "t0"
          (Except.ok ()) (Except.ok devSendResult) (Except.ok "inv")).store "order-6"
          = (200, some (buildOrderItem shippedStatusPayload "order-6" "t0"))
      ∧ (buildOrderItem shippedStatusPayload "order-6" "t0").status = "shipped"
      ∧ "shipped" ≠ "received" :=
  ⟨by decide, rfl, rfl, by decide⟩

/-! ### C10 -/

/-- C10 (confirmed): POST /notify separates input errors from delivery
errors at the HTTP level: a missing or empty orderId, customerEmail or
status, or a customer email failing the shape regex, answers 400 with no
send attempted; with well-formed input the send is attempted, a resolved
send — successful or not — answers 200 whose body echoes the success
flag and, on failure, the error, errorType and suggestion of the
classification; a rejection of the send answers 500, and 500 arises only
from such a rejection. -/
theorem notify_error_classification (isDev : Bool) (req : NotifyRequest)
    (sendR : Except String NotifySendResult) :
    ((falsyStr req.orderId = true ∨ falsyStr req.customerEmail = true
        ∨ falsyStr req.status = true
        ∨ emailRegexTest (req.customerEmail.getD "") = false) →
      (notifyHandler isDev req sendR).resp.status = 400
        ∧ (notifyHandler isDev req sendR).sendAttempted = false)
    ∧ (falsyStr req.orderId = false → falsyStr req.customerEmail = false →
        falsyStr req.status = false → emailRegexTest (req.customerEmail.getD "") = true →
        (notifyHandler isDev req sendR).sendAttempted = true
          ∧ (∀ r, sendR = Except.ok r →
              (notifyHandler isDev req sendR).resp.status = 200
                ∧ (notifyHandler isDev req sendR).resp.success = some r.success
                ∧ (r.success = false →
                    (notifyHandler isDev req sendR).resp.detailError = r.error
                      ∧ (notifyHandler isDev req sendR).resp.detailErrorType = r.errorType
                      ∧ (notifyHandler isDev req sendR).resp.detailSuggestion = r.suggestion))
          ∧ (∀ m, sendR = Except.error m → (notifyHandler isDev req sendR).resp.status = 500))
    ∧ ((notifyHandler isDev req sendR).resp.status = 500 → ∃ m, sendR = Except.error m) := by
  by_cases h1 : falsyStr req.orderId = true
  · have hs : (notifyHandler isDev req sendR).resp.status = 400 := by
      simp [notifyHandler, h1, notify400]
    refine ⟨fun _ => ⟨hs, by simp [notifyHandler, h1]⟩, ?_, ?_⟩
    · intro ho _ _ _
      rw [ho] at h1
      exact absurd h1 (by decide)
    · intro h500
      rw [hs] at h500
      exact absurd h500 (by decide)
  · have h1f : falsyStr req.orderId = false := by simpa using h1
    by_cases h2 : falsyStr req.customerEmail = true
    · have hs : (notifyHandler isDev req sendR).resp.status = 400 := by
        simp [notifyHandler, h1f, h2, notify400]
      refine ⟨fun _ => ⟨hs, by simp [notifyHandler, h1f, h2]⟩, ?_, ?_⟩
      · intro _ ho _ _
        rw [ho] at h2
        exact absurd h2 (by decide)
      · intro h500
        rw [hs] at h500
        exact absurd h500 (by decide)
    · have h2f : falsyStr req.customerEmail = false := by simpa using h2
      by_cases h3 : falsyStr req.status = true
      · have hs : (notifyHandler isDev req sendR).resp.status = 400 := by
          simp [notifyHandler, h1f, h2f, h3, notify400]
        refine ⟨fun _ => ⟨hs, by simp [notifyHandler, h1f, h2f, h3]⟩, ?_, ?_⟩
        · intro _ _ ho _
          rw [ho] at h3
          exact absurd h3 (by decide)
        · intro h500
          rw [hs] at h500
          exact absurd h500 (by decide)
      · have h3f : falsyStr req.status = false := by simpa using h3
        by_cases h4 : emailRegexTest (req.customerEmail.getD "") = true
        · refine ⟨?_, ?_, ?_⟩
          · intro hor
            rcases hor with h | h | h | h
            · rw [h] at h1f
              exact absurd h1f (by decide)
            · rw [h] at h2f
              exact absurd h2f (by decide)
            · rw [h] at h3f
              exact absurd h3f (by decide)
            · rw [h] at h4
              exact absurd h4 (by decide)
          · intro _ _ _ _
            refine ⟨?_, ?_, ?_⟩
            · cases sendR with
              | error m => simp [notifyHandler, h1f, h2f, h3f, h4]
              | ok r =>
                cases hr : r.success <;> simp [notifyHandler, h1f, h2f, h3f, h4, hr]
            · intro r hrr
              subst hrr
              cases hr : r.success with
              | true =>
                refine ⟨?_, ?_, ?_⟩
                · simp [notifyHandler, h1f, h2f, h3f, h4, hr]
                · simp [notifyHandler, h1f, h2f, h3f, h4, hr]
                · intro hcontra
                  simp [hr] at hcontra
              | false =>
                refine ⟨?_, ?_, fun _ => ⟨?_, ?_, ?_⟩⟩ <;>
                  simp [notifyHandler, h1f, h2f, h3f, h4, hr]
            · intro m hm
              subst hm
              simp [notifyHandler, h1f, h2f, h3f, h4]
          · intro h500
            cases sendR with
            | error m => exact ⟨m, rfl⟩
            | ok r =>
              have hs : (notifyHandler isDev req (Except.ok r)).resp.status = 200 := by
                cases hr : r.success <;> simp [notifyHandler, h1f, h2f, h3f, h4, hr]
              rw [hs] at h500
              exact absurd h500 (by decide)
        · have h4f : emailRegexTest (req.customerEmail.getD "") = false := by simpa using h4
          have hs : (notifyHandler isDev req sendR).resp.status = 400 := by
            simp [notifyHandler, h1f, h2f, h3f, h4f, notify400]
          refine ⟨fun _ => ⟨hs, by simp [notifyHandler, h1f, h2f, h3f, h4f]⟩, ?_, ?_⟩
          · intro _ _ _ ho
            rw [ho] at h4f
            exact absurd h4f (by decide)
          · intro h500
            rw [hs] at h500
            exact absurd h500 (by decide)

/-- A well-formed notification request. -/
def sampleNotifyReq : NotifyRequest :=
  { orderId := some "order-1", customerEmail := some "jane.doe@example.com",
    status := some "shipped", customerName := some "Jane" }

/-- A resolved sendNotification failure with its classification. -/
def failSendResult : NotifySendResult :=
  { success := false, messageId := none, recipients := [],
    error := some "Email address is not verified.",
    errorType := some "email_not_verified",
    suggestion := some "Verify the sending address in SES." }

/-- C10 witness: a well-formed request whose send resolves as a failure
is answered 200 with success false and the error classification, having
attempted the send. -/
theorem notify_error_classification_witness :
    (notifyHandler false sampleNotifyReq (Except.ok failSendResult)).sendAttempted = true
      ∧ (notifyHandler false sampleNotifyReq (Except.ok failSendResult)).resp.status = 200
      ∧ (notifyHandler false sampleNotifyReq (Except.ok failSendResult)).resp.success
          = some false
      ∧ (notifyHandler false sampleNotifyReq (Except.ok failSendResult)).resp.detailErrorType
          = some "email_not_verified" := by
  have h := (notify_error_classification false sampleNotifyReq
    (Except.ok failSendResult)).2.1 rfl rfl rfl (by decide)
  have hok := h.2.1 failSendResult rfl
  exact ⟨h.1, hok.1, hok.2.1, (hok.2.2 rfl).2.1⟩

end TrackFlow
